import Mathlib

/-! Shallow embedding of the repository:

Shallow embedding of `frappe/query_builder/terms.py`: the value-to-SQL
serialization and parameter-binding engine (`NamedParameterWrapper`,
`ParameterizedValueWrapper`, `ParameterizedFunction`, `SubQuery`,
`conversion_column_value`), together with models of the external-library
contracts it relies on (`get_value_sql`, `format_alias_sql`, argument
rendering) and of the repository formatters not present in the sources
(`format_timedelta`, `format_time`, `frappe.db.format_datetime`).

Python exceptions are modelled by `Option`: a function that can raise
returns `none` on the raising input.
-/

namespace Frappe

/-- Decimal digit character, `48 + d` is the codepoint of the digit `d`. -/
def digitChr (d : Nat) : Char := Char.ofNat (48 + d)

/-- Fuel-driven decimal rendering of a natural number (the fuel is an upper
bound on the number of digits; `natToStr` supplies enough). -/
def natToStrAux : Nat → Nat → List Char
  | 0, _ => []
  | fuel + 1, n =>
      if n < 10 then [digitChr n] else natToStrAux fuel (n / 10) ++ [digitChr (n % 10)]

/-- Decimal rendering of a natural number, as Python's `str`/f-string
interpolation renders a non-negative integer. -/
def natToStr (n : Nat) : String := String.mk (natToStrAux (n + 1) n)

/-- Python `datetime.timedelta` as it reaches the serializer (already reduced
to clock components by the formatting layer). -/
structure Timedelta where
  hours : Nat
  minutes : Nat
  seconds : Nat
  microseconds : Nat
deriving DecidableEq

/-- Python `datetime.time`. -/
structure TimeOfDay where
  hour : Nat
  minute : Nat
  second : Nat
  microsecond : Nat
deriving DecidableEq

/-- Python `datetime.datetime`. -/
structure DatetimeVal where
  year : Nat
  month : Nat
  day : Nat
  hour : Nat
  minute : Nat
  second : Nat
  microsecond : Nat
deriving DecidableEq

/-- The type-erased Python value domain the serializer dispatches on.
`float` carries the text Python's `str()` produces for it, since only that
textual form is ever consumed. -/
inductive PyValue where
  | str : String → PyValue
  | int : Int → PyValue
  | float : String → PyValue
  | bool : Bool → PyValue
  | none : PyValue
  | timedelta : Timedelta → PyValue
  | time : TimeOfDay → PyValue
  | datetime : DatetimeVal → PyValue
deriving DecidableEq

/-- Left-pad a decimal rendering with zeros to two places, Python `{:02d}`. -/
def pad2 (n : Nat) : String := if n < 10 then "0" ++ natToStr n else natToStr n

/-- Left-pad a decimal rendering with zeros to six places, Python `{:06d}`. -/
def pad6 (n : Nat) : String :=
  let s := natToStr n
  String.mk (List.replicate (6 - s.length) '0') ++ s

/-- Modelled from the spec: `format_timedelta` (frappe.utils.data, not under
src/) renders a duration as canonical "HH:MM:SS" text, appending ".ffffff"
microseconds only when they are non-zero. -/
def format_timedelta (d : Timedelta) : String :=
  pad2 d.hours ++ ":" ++ pad2 d.minutes ++ ":" ++ pad2 d.seconds ++
    (if d.microseconds == 0 then "" else "." ++ pad6 d.microseconds)

/-- Modelled from the spec: `format_time` (frappe.utils.data, not under src/)
renders a time-of-day as canonical "HH:MM:SS" text, appending ".ffffff"
microseconds only when they are non-zero. -/
def format_time (t : TimeOfDay) : String :=
  pad2 t.hour ++ ":" ++ pad2 t.minute ++ ":" ++ pad2 t.second ++
    (if t.microsecond == 0 then "" else "." ++ pad6 t.microsecond)

/-- Plain ISO-style text for a datetime, used only in the total fallbacks the
serializer never reaches for datetimes (they are formatted via the
connection before any such fallback). -/
def datetimeIso (dt : DatetimeVal) : String :=
  natToStr dt.year ++ "-" ++ pad2 dt.month ++ "-" ++ pad2 dt.day ++ " " ++
    pad2 dt.hour ++ ":" ++ pad2 dt.minute ++ ":" ++ pad2 dt.second ++
    (if dt.microsecond == 0 then "" else "." ++ pad6 dt.microsecond)

/-- Python `str()` of a value, as used by `conversion_column_value`'s
non-string fallback (`ret = str(value)`). -/
def pyStr : PyValue → String
  | .str s => s
  | .int n => toString n
  | .float r => r
  | .bool b => if b then "True" else "False"
  | .none => "None"
  | .timedelta d => format_timedelta d
  | .time t => format_time t
  | .datetime dt => datetimeIso dt

/-! Section: NamedParameterWrapper -/

/-- Structure `NamedParameterWrapper`: holds the parameter dict. The Python `dict` is
modelled as an insertion-ordered association list. -/
structure NamedParameterWrapper where
  parameters : List (String × String)
deriving DecidableEq

/-- Python dict assignment `d[k] = v`: overwrite in place when the key is
present, append otherwise. -/
def dictSet (d : List (String × String)) (k v : String) : List (String × String) :=
  if d.any (fun p => p.1 == k) then d.map (fun p => if p.1 == k then (k, v) else p)
  else d ++ [(k, v)]

/-- The generated parameter key `param{n}`. -/
def paramKey (n : Nat) : String := "param" ++ natToStr n

/-- Method `NamedParameterWrapper.get_sql`: allocates the key
`param{len(parameters)+1}`, stores the value under it (the stored key is the
placeholder `%(paramN)s` stripped of its first two and last two characters),
and returns the placeholder. -/
def NamedParameterWrapper.get_sql (pw : NamedParameterWrapper) (param_value : String) :
    String × NamedParameterWrapper :=
  let n := pw.parameters.length + 1
  ("%(" ++ paramKey n ++ ")s", ⟨dictSet pw.parameters (paramKey n) param_value⟩)

/-! Section: conversion_column_value -/

/-- ASCII decimal digit test, the relevant fragment of Python's `\d`. -/
def isDigitChar (c : Char) : Bool := c.isDigit

/-- Exact match for the regex core `\d{4}-\d{2}-\d{2}`. -/
def coreDate : List Char → Bool
  | [a, b, c, d, '-', e, f, '-', g, h] => [a, b, c, d, e, f, g, h].all isDigitChar
  | _ => false

/-- Exact match for the regex core `\d{4}-\d{2}-\d{2} \d{2}:\d{2}:\d{2}`. -/
def coreDatetime : List Char → Bool
  | [a, b, c, d, '-', e, f, '-', g, h, ' ', i, j, ':', k, l, ':', m, n] =>
      [a, b, c, d, e, f, g, h, i, j, k, l, m, n].all isDigitChar
  | _ => false

/-- Exact match for the regex core
`\d{4}-\d{2}-\d{2} \d{2}:\d{2}:\d{2}\.\d+`. -/
def coreFrac : List Char → Bool
  | a :: b :: c :: d :: '-' :: e :: f :: '-' :: g :: h :: ' ' ::
      i :: j :: ':' :: k :: l :: ':' :: m :: n :: '.' :: rest =>
      [a, b, c, d, e, f, g, h, i, j, k, l, m, n].all isDigitChar &&
        !rest.isEmpty && rest.all isDigitChar
  | _ => false

/-- Python `re.search('^core$', s)`: with `^` the match is anchored at the
start, and `$` matches at the end of the string or just before a trailing
newline. -/
def pyMatch (core : List Char → Bool) (l : List Char) : Bool :=
  core l || (l.getLast? == some '\n' && core l.dropLast)

/-- Python `value.replace("'", "''")`: double every single quote. -/
def escQuotes : List Char → List Char
  | [] => []
  | '\'' :: rest => '\'' :: '\'' :: escQuotes rest
  | c :: rest => c :: escQuotes rest

/-- Function `conversion_column_value(value, convert_to_date=True)`.

Returns `none` exactly where the Python code raises: when the input string is
quote-delimited with nothing (or a lone quote) inside, stripping the outer
quotes leaves the empty string and `value[0]` raises `IndexError`. -/
def conversion_column_value (value : PyValue) (convert_to_date : Bool := true) : Option String :=
  match value with
  | .str s =>
      let l0 := s.data
      if l0.isEmpty then some "''"
      else
        let l := if l0.head? == some '\'' && l0.getLast? == some '\'' then (l0.drop 1).dropLast
                 else l0
        let v := String.mk l
        if convert_to_date && pyMatch coreFrac l then
          some ("to_timestamp('" ++ v ++ "', 'yyyy-mm-dd hh24:mi:ss.ff6')")
        else if convert_to_date && pyMatch coreDatetime l then
          some ("to_timestamp('" ++ v ++ "', 'yyyy-mm-dd hh24:mi:ss')")
        else if convert_to_date && pyMatch coreDate l then
          some ("to_date('" ++ v ++ "', 'yyyy-mm-dd')")
        else
          match l with
          | [] => Option.none
          | c :: _ =>
              if !(c == '\'') || !(l.getLast? == some '\'') then
                some (String.mk ('\'' :: escQuotes l ++ ['\'']))
              else some v
  | .none => some "NULL"
  | v => some (pyStr v)

/-! Section: External library contracts (pypika), modelled from the spec -/

/-- Modelled from the spec: quote wrapping as done by the external
query-builder library (`format_quotes`). -/
def formatQuotes (v : String) (q : Option String) : String :=
  match q with
  | Option.none => v
  | some qc => qc ++ v ++ qc

/-- Modelled from the spec: trailing alias formatting of the external
query-builder library (`format_alias_sql`) — leave the SQL unchanged when no
alias is set, otherwise append the (possibly quoted) alias. -/
def format_alias_sql (sql : String) (alias_ : Option String) (quote_char : Option String) :
    String :=
  match alias_ with
  | Option.none => sql
  | some a => sql ++ " " ++ formatQuotes a quote_char

/-- Modelled from the spec: the external query-builder library's literal
rendering (`ValueWrapper.get_value_sql`): strings quoted with single quotes
and embedded quotes doubled, numbers unquoted, null as NULL, booleans as
literal tokens; temporal payloads never reach this function un-formatted, a
plain textual form stands in for them. -/
def get_value_sql : PyValue → String
  | .str s => String.mk ('\'' :: escQuotes s.data ++ ['\''])
  | .int n => toString n
  | .float r => r
  | .bool b => if b then "true" else "false"
  | .none => "NULL"
  | .timedelta d => format_timedelta d
  | .time t => format_time t
  | .datetime dt => datetimeIso dt

/-! Section: ParameterizedValueWrapper -/

/-- The rendering context threaded through a render pass: the quote
character, the global `frappe.is_oracledb` dialect flag, and the database
connection's `format_datetime`. Whether the pass is parameterized is carried
by the presence of the `param_wrapper` argument itself. -/
structure RenderContext where
  quote_char : Option String
  is_oracledb : Bool
  format_datetime : DatetimeVal → String

/-- A `ParameterizedValueWrapper`: the wrapped payload and the optional
alias. -/
structure ParameterizedValueWrapper where
  value : PyValue
  alias_ : Option String
deriving DecidableEq

/-- Python `s.startswith(pre)`. -/
def pyStartswith (s pre : String) : Bool := pre.data.isPrefixOf s.data

/-- Method `ParameterizedValueWrapper.get_sql`: returns the SQL text, the wrapper
after the call (the Python code reassigns `self.value` on some paths), and
the parameter wrapper after the call; `none` models the `IndexError` that
`conversion_column_value` can raise. -/
def ParameterizedValueWrapper.get_sql (self : ParameterizedValueWrapper)
    (ctx : RenderContext) (param_wrapper : Option NamedParameterWrapper) :
    Option (String × ParameterizedValueWrapper × Option NamedParameterWrapper) :=
  match param_wrapper, self.value with
  | some pw, .str s =>
      if pyStartswith s "to_timestamp" then
        some (format_alias_sql s self.alias_ ctx.quote_char, self, some pw)
      else
        let value_sql := get_value_sql (.str s)
        let r := pw.get_sql value_sql
        some (format_alias_sql r.1 self.alias_ ctx.quote_char, self, some r.2)
  | Option.none, .str s =>
      if pyStartswith s "to_timestamp" || pyStartswith s "to_date" then
        some (format_alias_sql s self.alias_ ctx.quote_char, self, Option.none)
      else if ctx.is_oracledb then
        match conversion_column_value (.str s) with
        | some r => some (r, { self with value := .str r }, Option.none)
        | Option.none => Option.none
      else
        some (format_alias_sql (get_value_sql (.str s)) self.alias_ ctx.quote_char,
          self, Option.none)
  | pw, .timedelta d =>
      let newv := format_timedelta d
      if ctx.is_oracledb then
        some ("to_timestamp('" ++ newv ++ "', 'yyyy-mm-dd hh24:mi:ss.ff6')",
          { self with value := .str newv }, pw)
      else
        some (format_alias_sql (get_value_sql (.str newv)) self.alias_ ctx.quote_char,
          { self with value := .str newv }, pw)
  | pw, .time t =>
      let newv := format_time t
      if ctx.is_oracledb then
        some ("to_timestamp('" ++ newv ++ "', 'yyyy-mm-dd hh24:mi:ss.ff6')",
          { self with value := .str newv }, pw)
      else
        some (format_alias_sql (get_value_sql (.str newv)) self.alias_ ctx.quote_char,
          { self with value := .str newv }, pw)
  | pw, .datetime dt =>
      let newv := ctx.format_datetime dt
      if ctx.is_oracledb then
        some ("to_timestamp('" ++ newv ++ "', 'yyyy-mm-dd hh24:mi:ss.ff6')",
          { self with value := .str newv }, pw)
      else
        some (format_alias_sql (get_value_sql (.str newv)) self.alias_ ctx.quote_char,
          { self with value := .str newv }, pw)
  | pw, v =>
      if ctx.is_oracledb then
        match conversion_column_value v with
        | some r => some (r, { self with value := .str r }, pw)
        | Option.none => Option.none
      else
        some (format_alias_sql (get_value_sql v) self.alias_ ctx.quote_char, self, pw)

/-! Section: Composition: function calls and subqueries sharing one store -/

mutual
/-- A term tree of one statement: wrapped values, `ParameterizedFunction`
calls (name, arguments, alias), and `SubQuery` nodes wrapping the terms of a
nested query (the nested query's own rendering is external; what matters
here, per the spec, is that it renders its value nodes left-to-right against
the same shared context). -/
inductive PTerm where
  | val : ParameterizedValueWrapper → PTerm
  | func : String → PTermList → Option String → PTerm
  | subq : PTermList → Option String → PTerm

/-- A sequence of terms (function arguments, the value nodes of a statement
or of a nested query), in source order. -/
inductive PTermList where
  | nil : PTermList
  | cons : PTerm → PTermList → PTermList
end

mutual
/-- Render one term against the shared context, threading the shared
`NamedParameterWrapper` — `ParameterizedValueWrapper.get_sql` at the leaves,
`ParameterizedFunction.get_sql` for calls (which forwards `param_wrapper`
into its argument loop), `SubQuery.get_sql` for nested queries (which
forwards all kwargs into the nested render). Argument joining and
parenthesization are the external library's; the store threading is what is
modelled. -/
def renderTerm (ctx : RenderContext) :
    PTerm → NamedParameterWrapper → Option (String × NamedParameterWrapper)
  | .val w, pw =>
      match w.get_sql ctx (some pw) with
      | some (sql, _, pwOut) => some (sql, pwOut.getD pw)
      | Option.none => Option.none
  | .func name args al, pw =>
      match renderTerms ctx args pw with
      | some (argSqls, pw') =>
          some (format_alias_sql (name ++ "(" ++ String.intercalate "," argSqls ++ ")")
            al ctx.quote_char, pw')
      | Option.none => Option.none
  | .subq qs al, pw =>
      match renderTerms ctx qs pw with
      | some (innerSqls, pw') =>
          some (format_alias_sql ("(" ++ String.intercalate " " innerSqls ++ ")")
            al ctx.quote_char, pw')
      | Option.none => Option.none

/-- Render a sequence of terms left-to-right, threading one shared
`NamedParameterWrapper` through the whole traversal. -/
def renderTerms (ctx : RenderContext) :
    PTermList → NamedParameterWrapper → Option (List String × NamedParameterWrapper)
  | .nil, pw => some ([], pw)
  | .cons t ts, pw =>
      match renderTerm ctx t pw with
      | some (sql, pw1) =>
          match renderTerms ctx ts pw1 with
          | some (sqls, pw') => some (sql :: sqls, pw')
          | Option.none => Option.none
      | Option.none => Option.none
end

/-! Section: Classification helpers used by the statements -/

/-- Whether a value is a Python `str`. -/
def PyValue.isStr : PyValue → Bool
  | .str _ => true
  | _ => false

/-- Whether a value is one of the temporal kinds the serializer special-cases
(`timedelta`, `time`, `datetime`). -/
def PyValue.isTemporal : PyValue → Bool
  | .timedelta _ => true
  | .time _ => true
  | .datetime _ => true
  | _ => false

/-- Whether a string is quote-delimited in the sense of
`conversion_column_value`: it starts and ends with a single quote (a lone
quote counts, its first and last character coincide). -/
def quoteDelim (l : List Char) : Bool :=
  l.head? == some '\'' && l.getLast? == some '\''

/-- Python `value[1:-1]`: drop the first and last character. -/
def stripQuotes (l : List Char) : List Char := (l.drop 1).dropLast

/-- Whether none of the three temporal regex checks of
`conversion_column_value` fires on a string. -/
def noTemporalMatch (l : List Char) : Bool :=
  !(pyMatch coreFrac l || pyMatch coreDatetime l || pyMatch coreDate l)

/-! Section: Decimal rendering is injective on positive numbers -/

theorem natToStrAux_eq_digits :
    ∀ (fuel n : Nat), 1 ≤ n → n ≤ fuel →
      natToStrAux fuel n = (Nat.digits 10 n).reverse.map digitChr := by
  intro fuel
  induction fuel with
  | zero => intro n h1 h2; omega
  | succ f ih =>
      intro n h1 h2
      rw [natToStrAux]
      by_cases hlt : n < 10
      · rw [if_pos hlt, Nat.digits_def' (by norm_num) h1]
        rw [Nat.mod_eq_of_lt hlt, Nat.div_eq_of_lt hlt]
        simp
      · rw [if_neg hlt]
        have hge : 10 ≤ n := Nat.le_of_not_lt hlt
        have hquot1 : 1 ≤ n / 10 := Nat.one_le_div_iff (by norm_num) |>.mpr hge
        have hquotf : n / 10 ≤ f := by
          have : n / 10 < n := Nat.div_lt_self (by omega) (by norm_num)
          omega
        rw [Nat.digits_def' (by norm_num : (1 : ℕ) < 10) (show 0 < n by omega),
          ih (n / 10) hquot1 hquotf]
        simp

theorem digitChr_bounded_inj : ∀ a < 10, ∀ b < 10, digitChr a = digitChr b → a = b := by decide

theorem map_digitChr_inj :
    ∀ (l1 l2 : List Nat), (∀ x ∈ l1, x < 10) → (∀ x ∈ l2, x < 10) →
      l1.map digitChr = l2.map digitChr → l1 = l2 := by
  intro l1
  induction l1 with
  | nil => intro l2 _ _ h; cases l2 <;> simp_all
  | cons a t ih =>
      intro l2 h1 h2 h
      cases l2 with
      | nil => simp_all
      | cons b t2 =>
          simp only [List.map_cons, List.cons.injEq] at h
          have ha : a < 10 := h1 a (by simp)
          have hb : b < 10 := h2 b (by simp)
          have : a = b := digitChr_bounded_inj a ha b hb h.1
          have : t = t2 := ih t2 (fun x hx => h1 x (by simp [hx])) (fun x hx => h2 x (by simp [hx])) h.2
          simp_all

theorem natToStr_inj {a b : Nat} (ha : 1 ≤ a) (hb : 1 ≤ b) (h : natToStr a = natToStr b) :
    a = b := by
  unfold natToStr at h
  have hd : natToStrAux (a + 1) a = natToStrAux (b + 1) b := by
    injection h
  rw [natToStrAux_eq_digits (a + 1) a ha (by omega),
    natToStrAux_eq_digits (b + 1) b hb (by omega)] at hd
  have hrev : (Nat.digits 10 a).reverse = (Nat.digits 10 b).reverse := by
    refine map_digitChr_inj _ _ ?_ ?_ hd <;>
      (intro x hx; simp only [List.mem_reverse] at hx; exact Nat.digits_lt_base (by norm_num) hx)
  have : Nat.digits 10 a = Nat.digits 10 b := List.reverse_injective hrev
  exact Nat.digits.injective 10 this

theorem paramKey_inj {a b : Nat} (ha : 1 ≤ a) (hb : 1 ≤ b) (h : paramKey a = paramKey b) :
    a = b := by
  unfold paramKey at h
  have hdata : ("param" ++ natToStr a).data = ("param" ++ natToStr b).data := by rw [h]
  simp only [String.data_append] at hdata
  have : (natToStr a).data = (natToStr b).data := List.append_cancel_left hdata
  exact natToStr_inj ha hb (by cases hs1 : natToStr a; cases hs2 : natToStr b; simp_all)

/-! Section: The parameter-store counter invariant -/

/-- The keys a well-formed store holds: `param1 .. paramN` in insertion
order. -/
def paramKeys (n : Nat) : List String := (List.range n).map (fun i => paramKey (i + 1))

/-- Invariant of a store during one render pass: its keys are exactly
`param1 .. paramN` in insertion order. -/
def StoreInv (pw : NamedParameterWrapper) : Prop :=
  pw.parameters.map Prod.fst = paramKeys pw.parameters.length

theorem dictSet_append {d : List (String × String)} {k v : String}
    (h : d.any (fun p => p.1 == k) = false) : dictSet d k v = d ++ [(k, v)] := by
  unfold dictSet
  rw [if_neg (by simp [h])]

theorem fresh_key_of_inv {pw : NamedParameterWrapper} (hInv : StoreInv pw) :
    pw.parameters.any (fun p => p.1 == paramKey (pw.parameters.length + 1)) = false := by
  rw [List.any_eq_false]
  intro p hp
  have hmem : p.1 ∈ pw.parameters.map Prod.fst := List.mem_map_of_mem Prod.fst hp
  rw [hInv] at hmem
  unfold paramKeys at hmem
  simp only [List.mem_map, List.mem_range] at hmem
  obtain ⟨i, hi, hkey⟩ := hmem
  simp only [Bool.not_eq_true, beq_eq_false_iff_ne, ne_eq]
  rw [← hkey]
  intro hcontra
  have := paramKey_inj (Nat.le_add_left 1 i) (Nat.le_add_left 1 _) hcontra
  omega

theorem get_sql_parameters {pw : NamedParameterWrapper} (v : String) (hInv : StoreInv pw) :
    (pw.get_sql v).2.parameters =
      pw.parameters ++ [(paramKey (pw.parameters.length + 1), v)] := by
  unfold NamedParameterWrapper.get_sql
  exact dictSet_append (fresh_key_of_inv hInv)

theorem storeInv_get_sql {pw : NamedParameterWrapper} (v : String) (hInv : StoreInv pw) :
    StoreInv (pw.get_sql v).2 := by
  unfold StoreInv
  rw [get_sql_parameters v hInv]
  simp only [List.map_append, List.length_append, List.map_cons, List.map_nil, List.length_cons,
    List.length_nil]
  rw [hInv]
  unfold paramKeys
  rw [List.range_succ]
  simp

/-- Every way `ParameterizedValueWrapper.get_sql` can touch the store in a
parameterized render: it either leaves it alone or performs exactly one
`NamedParameterWrapper.get_sql` bind. -/
theorem pvw_get_sql_store (w : ParameterizedValueWrapper) (ctx : RenderContext)
    (pw : NamedParameterWrapper)
    (r : String × ParameterizedValueWrapper × Option NamedParameterWrapper)
    (h : w.get_sql ctx (some pw) = some r) :
    r.2.2 = some pw ∨ ∃ v, r.2.2 = some (pw.get_sql v).2 := by
  obtain ⟨v, al⟩ := w
  cases v with
  | str s =>
      simp only [ParameterizedValueWrapper.get_sql] at h
      split at h
      · obtain rfl := Option.some.inj h
        exact Or.inl rfl
      · obtain rfl := Option.some.inj h
        exact Or.inr ⟨get_value_sql (.str s), rfl⟩
  | timedelta d =>
      simp only [ParameterizedValueWrapper.get_sql] at h
      split at h <;> (obtain rfl := Option.some.inj h; exact Or.inl rfl)
  | time t =>
      simp only [ParameterizedValueWrapper.get_sql] at h
      split at h <;> (obtain rfl := Option.some.inj h; exact Or.inl rfl)
  | datetime dt =>
      simp only [ParameterizedValueWrapper.get_sql] at h
      split at h <;> (obtain rfl := Option.some.inj h; exact Or.inl rfl)
  | int n =>
      simp only [ParameterizedValueWrapper.get_sql, conversion_column_value] at h
      split at h <;> (obtain rfl := Option.some.inj h; exact Or.inl rfl)
  | float f =>
      simp only [ParameterizedValueWrapper.get_sql, conversion_column_value] at h
      split at h <;> (obtain rfl := Option.some.inj h; exact Or.inl rfl)
  | bool b =>
      simp only [ParameterizedValueWrapper.get_sql, conversion_column_value] at h
      split at h <;> (obtain rfl := Option.some.inj h; exact Or.inl rfl)
  | none =>
      simp only [ParameterizedValueWrapper.get_sql, conversion_column_value] at h
      split at h <;> (obtain rfl := Option.some.inj h; exact Or.inl rfl)

mutual
/-- Rendering one term only grows the store by appending fresh bindings and
preserves the key invariant. -/
theorem renderTerm_store_inv (ctx : RenderContext) :
    ∀ (t : PTerm) (pw : NamedParameterWrapper) (r : String × NamedParameterWrapper),
      StoreInv pw → renderTerm ctx t pw = some r →
      pw.parameters <+: r.2.parameters ∧ StoreInv r.2
  | .val w, pw, r, hinv, h => by
      simp only [renderTerm] at h
      cases hg : w.get_sql ctx (some pw) with
      | none => rw [hg] at h; simp at h
      | some res =>
          rw [hg] at h
          obtain ⟨sql, w', pwOut⟩ := res
          simp only at h
          obtain rfl := Option.some.inj h
          rcases pvw_get_sql_store w ctx pw (sql, w', pwOut) hg with hsame | ⟨v, hbind⟩
          · simp only at hsame
            rw [hsame]
            exact ⟨List.prefix_refl _, hinv⟩
          · simp only at hbind
            rw [hbind]
            simp only [Option.getD_some]
            exact ⟨by rw [get_sql_parameters v hinv]; exact List.prefix_append _ _,
              storeInv_get_sql v hinv⟩
  | .func name args al, pw, r, hinv, h => by
      simp only [renderTerm] at h
      cases hg : renderTerms ctx args pw with
      | none => rw [hg] at h; simp at h
      | some res =>
          rw [hg] at h
          obtain ⟨argSqls, pw'⟩ := res
          simp only at h
          obtain rfl := Option.some.inj h
          exact renderTerms_store_inv ctx args pw (argSqls, pw') hinv hg
  | .subq qs al, pw, r, hinv, h => by
      simp only [renderTerm] at h
      cases hg : renderTerms ctx qs pw with
      | none => rw [hg] at h; simp at h
      | some res =>
          rw [hg] at h
          obtain ⟨innerSqls, pw'⟩ := res
          simp only at h
          obtain rfl := Option.some.inj h
          exact renderTerms_store_inv ctx qs pw (innerSqls, pw') hinv hg

/-- Rendering a sequence of terms only grows the store by appending fresh
bindings and preserves the key invariant. -/
theorem renderTerms_store_inv (ctx : RenderContext) :
    ∀ (ts : PTermList) (pw : NamedParameterWrapper) (r : List String × NamedParameterWrapper),
      StoreInv pw → renderTerms ctx ts pw = some r →
      pw.parameters <+: r.2.parameters ∧ StoreInv r.2
  | .nil, pw, r, hinv, h => by
      simp only [renderTerms] at h
      obtain rfl := Option.some.inj h
      exact ⟨List.prefix_refl _, hinv⟩
  | .cons t ts, pw, r, hinv, h => by
      simp only [renderTerms] at h
      cases hg : renderTerm ctx t pw with
      | none => rw [hg] at h; simp at h
      | some res1 =>
          rw [hg] at h
          obtain ⟨sql, pw1⟩ := res1
          simp only at h
          cases hg2 : renderTerms ctx ts pw1 with
          | none => rw [hg2] at h; simp at h
          | some res2 =>
              rw [hg2] at h
              obtain ⟨sqls, pw'⟩ := res2
              simp only at h
              obtain rfl := Option.some.inj h
              have h1 := renderTerm_store_inv ctx t pw (sql, pw1) hinv hg
              have h2 := renderTerms_store_inv ctx ts pw1 (sqls, pw') h1.2 hg2
              exact ⟨h1.1.trans h2.1, h2.2⟩
end

/-! Section: Shape lemmas for the regex cores -/

theorem digit_ne_char {c : Char} (hc : isDigitChar c = true) {d : Char}
    (hd : isDigitChar d = false) : (c == d) = false := by
  rw [beq_eq_false_iff_ne]
  intro h
  rw [h] at hc
  rw [hc] at hd
  exact Bool.noConfusion hd

theorem coreDate_shape {l : List Char} (h : coreDate l = true) :
    ∃ y1 y2 y3 y4 m1 m2 d1 d2,
      l = [y1, y2, y3, y4, '-', m1, m2, '-', d1, d2] ∧
        ([y1, y2, y3, y4, m1, m2, d1, d2].all isDigitChar = true) := by
  unfold coreDate at h
  split at h
  · rename_i y1 y2 y3 y4 m1 m2 d1 d2
    exact ⟨y1, y2, y3, y4, m1, m2, d1, d2, rfl, h⟩
  · simp at h

theorem coreDatetime_shape {l : List Char} (h : coreDatetime l = true) :
    ∃ y1 y2 y3 y4 m1 m2 d1 d2 h1 h2 mi1 mi2 s1 s2,
      l = [y1, y2, y3, y4, '-', m1, m2, '-', d1, d2, ' ',
            h1, h2, ':', mi1, mi2, ':', s1, s2] ∧
        ([y1, y2, y3, y4, m1, m2, d1, d2, h1, h2, mi1, mi2, s1, s2].all isDigitChar = true) := by
  unfold coreDatetime at h
  split at h
  · rename_i y1 y2 y3 y4 m1 m2 d1 d2 h1 h2 mi1 mi2 s1 s2
    exact ⟨y1, y2, y3, y4, m1, m2, d1, d2, h1, h2, mi1, mi2, s1, s2, rfl, h⟩
  · simp at h

theorem coreFrac_shape {l : List Char} (h : coreFrac l = true) :
    ∃ y1 y2 y3 y4 m1 m2 d1 d2 h1 h2 mi1 mi2 s1 s2 rest,
      l = y1 :: y2 :: y3 :: y4 :: '-' :: m1 :: m2 :: '-' :: d1 :: d2 :: ' ' ::
            h1 :: h2 :: ':' :: mi1 :: mi2 :: ':' :: s1 :: s2 :: '.' :: rest ∧
        ([y1, y2, y3, y4, m1, m2, d1, d2, h1, h2, mi1, mi2, s1, s2].all isDigitChar = true) ∧
        rest ≠ [] ∧ rest.all isDigitChar = true := by
  unfold coreFrac at h
  split at h
  · rename_i y1 y2 y3 y4 m1 m2 d1 d2 h1 h2 mi1 mi2 s1 s2 rest
    simp only [Bool.and_eq_true, Bool.not_eq_true'] at h
    exact ⟨y1, y2, y3, y4, m1, m2, d1, d2, h1, h2, mi1, mi2, s1, s2, rest, rfl,
      h.1.1, by simpa using h.1.2, h.2⟩
  · simp at h

theorem string_mk_data (s : String) : String.mk s.data = s := rfl

theorem beq_newline_of_digit {c : Char} (hc : isDigitChar c = true) : (c == '\n') = false :=
  digit_ne_char hc (by decide)

theorem beq_quote_of_digit {c : Char} (hc : isDigitChar c = true) : (c == '\'') = false :=
  digit_ne_char hc (by decide)

theorem not_quoteDelim_cons (c : Char) (t : List Char) :
    (!(c == '\'') || !((c :: t).getLast? == some '\'')) = !quoteDelim (c :: t) := by
  have h : quoteDelim (c :: t) = ((c == '\'') && ((c :: t).getLast? == some '\'')) := rfl
  rw [h, Bool.not_and]

/-! Section: Branch-by-branch evaluation of conversion_column_value -/

theorem conversion_frac_nostrip {s : String} (hne : s.data ≠ [])
    (hnd : quoteDelim s.data = false) (hm : pyMatch coreFrac s.data = true) :
    conversion_column_value (.str s) =
      some ("to_timestamp('" ++ s ++ "', 'yyyy-mm-dd hh24:mi:ss.ff6')") := by
  unfold quoteDelim at hnd
  simp only [conversion_column_value]
  rw [if_neg (by simp [List.isEmpty_iff, hne]), hnd]
  simp only [Bool.false_eq_true, if_false, Bool.true_and]
  rw [hm]
  simp only [if_true, string_mk_data]

theorem conversion_datetime_nostrip {s : String} (hne : s.data ≠ [])
    (hnd : quoteDelim s.data = false) (h1 : pyMatch coreFrac s.data = false)
    (hm : pyMatch coreDatetime s.data = true) :
    conversion_column_value (.str s) =
      some ("to_timestamp('" ++ s ++ "', 'yyyy-mm-dd hh24:mi:ss')") := by
  unfold quoteDelim at hnd
  simp only [conversion_column_value]
  rw [if_neg (by simp [List.isEmpty_iff, hne]), hnd]
  simp only [Bool.false_eq_true, if_false, Bool.true_and]
  rw [h1, hm]
  simp only [Bool.false_eq_true, if_false, if_true, string_mk_data]

theorem conversion_date_nostrip {s : String} (hne : s.data ≠ [])
    (hnd : quoteDelim s.data = false) (h1 : pyMatch coreFrac s.data = false)
    (h2 : pyMatch coreDatetime s.data = false) (hm : pyMatch coreDate s.data = true) :
    conversion_column_value (.str s) = some ("to_date('" ++ s ++ "', 'yyyy-mm-dd')") := by
  unfold quoteDelim at hnd
  simp only [conversion_column_value]
  rw [if_neg (by simp [List.isEmpty_iff, hne]), hnd]
  simp only [Bool.false_eq_true, if_false, Bool.true_and]
  rw [h1, h2, hm]
  simp only [Bool.false_eq_true, if_false, if_true, string_mk_data]

theorem conversion_esc_nostrip {s : String} (hne : s.data ≠ [])
    (hnd : quoteDelim s.data = false) (h1 : pyMatch coreFrac s.data = false)
    (h2 : pyMatch coreDatetime s.data = false) (h3 : pyMatch coreDate s.data = false) :
    conversion_column_value (.str s) =
      some (String.mk ('\'' :: escQuotes s.data ++ ['\''])) := by
  obtain ⟨c, t, hct⟩ := List.exists_cons_of_ne_nil hne
  have hnd' := hnd
  unfold quoteDelim at hnd'
  simp only [conversion_column_value]
  rw [if_neg (by simp [List.isEmpty_iff, hne]), hnd']
  simp only [Bool.false_eq_true, if_false, Bool.true_and]
  rw [h1, h2, h3]
  simp only [Bool.false_eq_true, if_false]
  rw [hct]
  show (if (!(c == '\'') || !((c :: t).getLast? == some '\'')) = true
      then some (String.mk ('\'' :: escQuotes (c :: t) ++ ['\'']))
      else some (String.mk (c :: t))) =
    some (String.mk ('\'' :: escQuotes (c :: t) ++ ['\'']))
  rw [not_quoteDelim_cons, ← hct, hnd]
  simp

theorem conversion_strip_entry {s : String} (hd : quoteDelim s.data = true) :
    s.data ≠ [] := by
  intro h0
  rw [h0] at hd
  simp [quoteDelim] at hd

theorem conversion_strip_frac {s : String} (hd : quoteDelim s.data = true)
    (hm : pyMatch coreFrac (stripQuotes s.data) = true) :
    conversion_column_value (.str s) =
      some ("to_timestamp('" ++ String.mk (stripQuotes s.data) ++
        "', 'yyyy-mm-dd hh24:mi:ss.ff6')") := by
  have hne := conversion_strip_entry hd
  unfold quoteDelim at hd
  simp only [stripQuotes] at hm ⊢
  simp only [conversion_column_value]
  rw [if_neg (by simp [List.isEmpty_iff, hne]), hd]
  simp only [if_true, Bool.true_and]
  rw [hm]
  simp only [if_true]

theorem conversion_strip_datetime {s : String} (hd : quoteDelim s.data = true)
    (h1 : pyMatch coreFrac (stripQuotes s.data) = false)
    (hm : pyMatch coreDatetime (stripQuotes s.data) = true) :
    conversion_column_value (.str s) =
      some ("to_timestamp('" ++ String.mk (stripQuotes s.data) ++
        "', 'yyyy-mm-dd hh24:mi:ss')") := by
  have hne := conversion_strip_entry hd
  unfold quoteDelim at hd
  simp only [stripQuotes] at h1 hm ⊢
  simp only [conversion_column_value]
  rw [if_neg (by simp [List.isEmpty_iff, hne]), hd]
  simp only [if_true, Bool.true_and]
  rw [h1, hm]
  simp only [Bool.false_eq_true, if_false, if_true]

theorem conversion_strip_date {s : String} (hd : quoteDelim s.data = true)
    (h1 : pyMatch coreFrac (stripQuotes s.data) = false)
    (h2 : pyMatch coreDatetime (stripQuotes s.data) = false)
    (hm : pyMatch coreDate (stripQuotes s.data) = true) :
    conversion_column_value (.str s) =
      some ("to_date('" ++ String.mk (stripQuotes s.data) ++ "', 'yyyy-mm-dd')") := by
  have hne := conversion_strip_entry hd
  unfold quoteDelim at hd
  simp only [stripQuotes] at h1 h2 hm ⊢
  simp only [conversion_column_value]
  rw [if_neg (by simp [List.isEmpty_iff, hne]), hd]
  simp only [if_true, Bool.true_and]
  rw [h1, h2, hm]
  simp only [Bool.false_eq_true, if_false, if_true]

theorem conversion_strip_empty {s : String} (hd : quoteDelim s.data = true)
    (hemp : stripQuotes s.data = []) :
    conversion_column_value (.str s) = Option.none := by
  have hne := conversion_strip_entry hd
  unfold quoteDelim at hd
  simp only [stripQuotes] at hemp
  simp only [conversion_column_value]
  rw [if_neg (by simp [List.isEmpty_iff, hne]), hd]
  simp only [if_true, Bool.true_and]
  rw [hemp]
  decide

theorem conversion_strip_esc {s : String} (hd : quoteDelim s.data = true)
    (hne2 : stripQuotes s.data ≠ [])
    (h1 : pyMatch coreFrac (stripQuotes s.data) = false)
    (h2 : pyMatch coreDatetime (stripQuotes s.data) = false)
    (h3 : pyMatch coreDate (stripQuotes s.data) = false)
    (hnd : quoteDelim (stripQuotes s.data) = false) :
    conversion_column_value (.str s) =
      some (String.mk ('\'' :: escQuotes (stripQuotes s.data) ++ ['\''])) := by
  have hne := conversion_strip_entry hd
  obtain ⟨c, t, hct⟩ := List.exists_cons_of_ne_nil hne2
  unfold quoteDelim at hd
  simp only [stripQuotes] at h1 h2 h3 hnd hct ⊢
  simp only [conversion_column_value]
  rw [if_neg (by simp [List.isEmpty_iff, hne]), hd]
  simp only [if_true, Bool.true_and]
  rw [h1, h2, h3]
  simp only [Bool.false_eq_true, if_false]
  rw [hct] at hnd ⊢
  show (if (!(c == '\'') || !((c :: t).getLast? == some '\'')) = true
      then some (String.mk ('\'' :: escQuotes (c :: t) ++ ['\'']))
      else some (String.mk (c :: t))) =
    some (String.mk ('\'' :: escQuotes (c :: t) ++ ['\'']))
  rw [not_quoteDelim_cons, hnd]
  simp

theorem conversion_strip_keep {s : String} (hd : quoteDelim s.data = true)
    (hne2 : stripQuotes s.data ≠ [])
    (h1 : pyMatch coreFrac (stripQuotes s.data) = false)
    (h2 : pyMatch coreDatetime (stripQuotes s.data) = false)
    (h3 : pyMatch coreDate (stripQuotes s.data) = false)
    (hdd : quoteDelim (stripQuotes s.data) = true) :
    conversion_column_value (.str s) = some (String.mk (stripQuotes s.data)) := by
  have hne := conversion_strip_entry hd
  obtain ⟨c, t, hct⟩ := List.exists_cons_of_ne_nil hne2
  unfold quoteDelim at hd
  simp only [stripQuotes] at h1 h2 h3 hdd hct ⊢
  simp only [conversion_column_value]
  rw [if_neg (by simp [List.isEmpty_iff, hne]), hd]
  simp only [if_true, Bool.true_and]
  rw [h1, h2, h3]
  simp only [Bool.false_eq_true, if_false]
  rw [hct] at hdd ⊢
  show (if (!(c == '\'') || !((c :: t).getLast? == some '\'')) = true
      then some (String.mk ('\'' :: escQuotes (c :: t) ++ ['\'']))
      else some (String.mk (c :: t))) =
    some (String.mk (c :: t))
  rw [not_quoteDelim_cons, hdd]
  simp

theorem quoteDelim_cons_digit {c : Char} (hc : isDigitChar c = true) (t : List Char) :
    quoteDelim (c :: t) = false := by
  have h : quoteDelim (c :: t) = ((c == '\'') && ((c :: t).getLast? == some '\'')) := rfl
  rw [h, beq_quote_of_digit hc, Bool.false_and]

theorem pyMatch_eq_false {core : List Char → Bool} {l : List Char}
    (h1 : core l = false) (h2 : (l.getLast? == some '\n') = false) :
    pyMatch core l = false := by
  simp [pyMatch, h1, h2]

theorem getLast_beq_newline_digit {l : List Char} {c : Char} (hl : l.getLast? = some c)
    (hc : isDigitChar c = true) : (l.getLast? == some '\n') = false := by
  rw [hl]
  show (c == '\n') = false
  exact beq_newline_of_digit hc

theorem frac_conds {l : List Char} (h : coreFrac l = true) :
    l ≠ [] ∧ quoteDelim l = false ∧ pyMatch coreFrac l = true := by
  obtain ⟨y1, y2, y3, y4, m1, m2, d1, d2, h1, h2, mi1, mi2, s1, s2, rest, heq,
    hdig, hrne, hrdig⟩ := coreFrac_shape h
  subst heq
  simp only [List.all_cons, List.all_nil, Bool.and_eq_true, and_true] at hdig
  obtain ⟨hy1, -⟩ := hdig
  exact ⟨by simp, quoteDelim_cons_digit hy1 _, by simp [pyMatch, h]⟩

theorem datetime_conds {l : List Char} (h : coreDatetime l = true) :
    l ≠ [] ∧ quoteDelim l = false ∧ pyMatch coreFrac l = false ∧
      pyMatch coreDatetime l = true := by
  obtain ⟨y1, y2, y3, y4, m1, m2, d1, d2, h1, h2, mi1, mi2, s1, s2, heq, hdig⟩ :=
    coreDatetime_shape h
  subst heq
  simp only [List.all_cons, List.all_nil, Bool.and_eq_true, and_true] at hdig
  obtain ⟨hy1, -, -, -, -, -, -, -, -, -, -, -, -, hs2⟩ := hdig
  have hcf : coreFrac [y1, y2, y3, y4, '-', m1, m2, '-', d1, d2, ' ',
      h1, h2, ':', mi1, mi2, ':', s1, s2] = false := rfl
  have hlast : [y1, y2, y3, y4, '-', m1, m2, '-', d1, d2, ' ',
      h1, h2, ':', mi1, mi2, ':', s1, s2].getLast? = some s2 := rfl
  exact ⟨by simp, quoteDelim_cons_digit hy1 _,
    pyMatch_eq_false hcf (getLast_beq_newline_digit hlast hs2), by simp [pyMatch, h]⟩

theorem date_conds {l : List Char} (h : coreDate l = true) :
    l ≠ [] ∧ quoteDelim l = false ∧ pyMatch coreFrac l = false ∧
      pyMatch coreDatetime l = false ∧ pyMatch coreDate l = true := by
  obtain ⟨y1, y2, y3, y4, m1, m2, d1, d2, heq, hdig⟩ := coreDate_shape h
  subst heq
  simp only [List.all_cons, List.all_nil, Bool.and_eq_true, and_true] at hdig
  obtain ⟨hy1, -, -, -, -, -, -, hd2⟩ := hdig
  have hcf : coreFrac [y1, y2, y3, y4, '-', m1, m2, '-', d1, d2] = false := rfl
  have hcd : coreDatetime [y1, y2, y3, y4, '-', m1, m2, '-', d1, d2] = false := rfl
  have hlast : [y1, y2, y3, y4, '-', m1, m2, '-', d1, d2].getLast? = some d2 := rfl
  exact ⟨by simp, quoteDelim_cons_digit hy1 _,
    pyMatch_eq_false hcf (getLast_beq_newline_digit hlast hd2),
    pyMatch_eq_false hcd (getLast_beq_newline_digit hlast hd2), by simp [pyMatch, h]⟩

theorem noTemporalMatch_split {l : List Char} (h : noTemporalMatch l = true) :
    pyMatch coreFrac l = false ∧ pyMatch coreDatetime l = false ∧
      pyMatch coreDate l = false := by
  simp only [noTemporalMatch, Bool.not_eq_true', Bool.or_eq_false_iff] at h
  exact ⟨h.1.1, h.1.2, h.2⟩

theorem escQuotes_length (l : List Char) : l.length ≤ (escQuotes l).length := by
  induction l with
  | nil => simp [escQuotes]
  | cons c t ih =>
      by_cases hc : c = '\''
      · subst hc
        simp only [escQuotes, List.length_cons]
        omega
      · rw [escQuotes]
        exacts [by simp only [List.length_cons]; omega, hc]

/-! Section: The claims -/

/-- Claim C5: under the OracleLike conversion heuristic, "2024-01-15" maps to
its to_date constructor, "2024-01-15 10:30:00" and
"2024-01-15 10:30:00.123456" to their to_timestamp constructors; generally,
any string exactly matching the fractional-datetime, datetime, or date
pattern is rewritten to the corresponding constructor call, with the checks
tried in fraction-then-datetime-then-date order and the first match
winning. -/
theorem temporal_classification :
    (conversion_column_value (.str "2024-01-15") =
        some "to_date('2024-01-15', 'yyyy-mm-dd')" ∧
      conversion_column_value (.str "2024-01-15 10:30:00") =
        some "to_timestamp('2024-01-15 10:30:00', 'yyyy-mm-dd hh24:mi:ss')" ∧
      conversion_column_value (.str "2024-01-15 10:30:00.123456") =
        some "to_timestamp('2024-01-15 10:30:00.123456', 'yyyy-mm-dd hh24:mi:ss.ff6')") ∧
    (∀ s : String, coreFrac s.data = true →
        conversion_column_value (.str s) =
          some ("to_timestamp('" ++ s ++ "', 'yyyy-mm-dd hh24:mi:ss.ff6')")) ∧
    (∀ s : String, coreDatetime s.data = true →
        conversion_column_value (.str s) =
          some ("to_timestamp('" ++ s ++ "', 'yyyy-mm-dd hh24:mi:ss')")) ∧
    (∀ s : String, coreDate s.data = true →
        conversion_column_value (.str s) =
          some ("to_date('" ++ s ++ "', 'yyyy-mm-dd')")) := by
  refine ⟨⟨by decide, by decide, by decide⟩, ?_, ?_, ?_⟩
  · intro s h
    obtain ⟨hne, hnd, hm⟩ := frac_conds h
    exact conversion_frac_nostrip hne hnd hm
  · intro s h
    obtain ⟨hne, hnd, h1, hm⟩ := datetime_conds h
    exact conversion_datetime_nostrip hne hnd h1 hm
  · intro s h
    obtain ⟨hne, hnd, h1, h2, hm⟩ := date_conds h
    exact conversion_date_nostrip hne hnd h1 h2 hm

/-- Witness for C5: the general date conjunct applied at a fresh concrete
input. -/
theorem temporal_classification_witness :
    conversion_column_value (.str "2025-12-31") =
      some ("to_date('" ++ "2025-12-31" ++ "', 'yyyy-mm-dd')") :=
  temporal_classification.2.2.2 "2025-12-31" (by decide)

/-- Claim C6 counterexample: "'a'b'" is quote-delimited and matches no
temporal pattern, yet the heuristic does not return the original quoted text
unchanged — it re-escapes the stripped body, returning "'a''b'". -/
theorem quoted_string_not_returned_unchanged :
    quoteDelim "'a'b'".data = true ∧
    noTemporalMatch (stripQuotes "'a'b'".data) = true ∧
    conversion_column_value (.str "'a'b'") = some "'a''b'" ∧
    ("'a''b'" : String) ≠ "'a'b'" := by decide

/-- Claim C6 (amended): outer quotes are stripped before the temporal
checks; for a non-empty string that is not quote-delimited and matches no
temporal pattern the result wraps the string once in quotes with embedded
quotes doubled; for a quote-delimited string the STRIPPED text (not the
original) is re-examined: it is re-wrapped with quote doubling when it does
not itself both start and end with a quote, and returned as-is otherwise. -/
theorem conversion_quote_handling :
    (∀ s : String, s.data ≠ [] → quoteDelim s.data = false → noTemporalMatch s.data = true →
        conversion_column_value (.str s) =
          some (String.mk ('\'' :: escQuotes s.data ++ ['\'']))) ∧
    (∀ s : String, quoteDelim s.data = true → coreDate (stripQuotes s.data) = true →
        conversion_column_value (.str s) =
          some ("to_date('" ++ String.mk (stripQuotes s.data) ++ "', 'yyyy-mm-dd')")) ∧
    (∀ s : String, quoteDelim s.data = true → stripQuotes s.data ≠ [] →
        noTemporalMatch (stripQuotes s.data) = true →
        conversion_column_value (.str s) =
          if quoteDelim (stripQuotes s.data) = true then some (String.mk (stripQuotes s.data))
          else some (String.mk ('\'' :: escQuotes (stripQuotes s.data) ++ ['\'']))) := by
  refine ⟨?_, ?_, ?_⟩
  · intro s hne hnd hnt
    obtain ⟨h1, h2, h3⟩ := noTemporalMatch_split hnt
    exact conversion_esc_nostrip hne hnd h1 h2 h3
  · intro s hd hm
    obtain ⟨-, -, h1, h2, hm'⟩ := date_conds hm
    exact conversion_strip_date hd h1 h2 hm'
  · intro s hd hne2 hnt
    obtain ⟨h1, h2, h3⟩ := noTemporalMatch_split hnt
    by_cases hdd : quoteDelim (stripQuotes s.data) = true
    · rw [if_pos hdd]
      exact conversion_strip_keep hd hne2 h1 h2 h3 hdd
    · rw [if_neg hdd]
      exact conversion_strip_esc hd hne2 h1 h2 h3 (Bool.eq_false_iff.mpr hdd)

/-- Witness for C6: the amended branches applied at concrete inputs
(an unquoted string with an embedded quote, a quoted date, and a doubly
quoted string). -/
theorem conversion_quote_handling_witness :
    conversion_column_value (.str "O'Brien") =
      some (String.mk ('\'' :: escQuotes "O'Brien".data ++ ['\''])) ∧
    conversion_column_value (.str "'2024-01-15'") =
      some ("to_date('" ++ String.mk (stripQuotes "'2024-01-15'".data) ++ "', 'yyyy-mm-dd')") ∧
    conversion_column_value (.str "''abc''") =
      (if quoteDelim (stripQuotes "''abc''".data) = true
        then some (String.mk (stripQuotes "''abc''".data))
        else some (String.mk ('\'' :: escQuotes (stripQuotes "''abc''".data) ++ ['\'']))) :=
  ⟨conversion_quote_handling.1 "O'Brien" (by decide) (by decide) (by decide),
   conversion_quote_handling.2.1 "'2024-01-15'" (by decide) (by decide),
   conversion_quote_handling.2.2 "''abc''" (by decide) (by decide) (by decide)⟩

/-- Claim C7 is a code bug: the heuristic is NOT total on strings. On the
single-quote string (and on the two-character quoted empty string) it strips
the outer quotes, leaving the empty string, and then evaluates `value[0]`,
raising IndexError — modelled here as `Option.none`. -/
theorem conversion_raises_on_lone_quote :
    conversion_column_value (.str "'") = Option.none ∧
    conversion_column_value (.str "''") = Option.none := by decide

/-- Claim C1: in a single parameterized render pass — one store shared by the
top-level values, function-call arguments and nested subqueries, traversed
left-to-right depth-first — after k values have been bound the store's keys
are exactly param1..paramk in insertion order, with no key reused or
skipped (so the i-th bound value sits under key param-i). -/
theorem param_keys_exact (ctx : RenderContext) (ts : PTermList)
    (r : List String × NamedParameterWrapper)
    (h : renderTerms ctx ts ⟨[]⟩ = some r) :
    r.2.parameters.map Prod.fst = paramKeys r.2.parameters.length :=
  (renderTerms_store_inv ctx ts ⟨[]⟩ r (by simp [StoreInv, paramKeys]) h).2

/-- Witness for C1: a function call with two bound arguments and a nested
subquery binding a third, rendered from an empty store. -/
theorem param_keys_exact_witness :
    ((⟨[("param1", "'a'"), ("param2", "'b'"), ("param3", "'c'")]⟩ :
        NamedParameterWrapper).parameters.map Prod.fst) =
      paramKeys (⟨[("param1", "'a'"), ("param2", "'b'"), ("param3", "'c'")]⟩ :
        NamedParameterWrapper).parameters.length :=
  param_keys_exact ⟨Option.none, false, fun _ => "DT"⟩
    (.cons (.func "f" (.cons (.val ⟨.str "a", Option.none⟩) (.cons (.val ⟨.str "b", Option.none⟩)
        (.cons (.subq (.cons (.val ⟨.str "c", Option.none⟩) .nil) Option.none) .nil)))
      Option.none) .nil)
    (["f(%(param1)s,%(param2)s,(%(param3)s))"],
      ⟨[("param1", "'a'"), ("param2", "'b'"), ("param3", "'c'")]⟩)
    (by decide)

/-- Claim C2 counterexample: in Parameterized mode a string carrying the
to_date constructor prefix is NOT passed through unchanged — it is quoted,
escaped and bound as a parameter, and the emitted SQL is the placeholder. -/
theorem to_date_bound_in_param_mode :
    (⟨.str "to_date('2024-01-15', 'yyyy-mm-dd')", Option.none⟩ :
        ParameterizedValueWrapper).get_sql ⟨Option.none, false, fun _ => "DT"⟩ (some ⟨[]⟩) =
      some ("%(param1)s", ⟨.str "to_date('2024-01-15', 'yyyy-mm-dd')", Option.none⟩,
        some ⟨[("param1", "'to_date(''2024-01-15'', ''yyyy-mm-dd'')'")]⟩) ∧
    ("%(param1)s" : String) ≠ "to_date('2024-01-15', 'yyyy-mm-dd')" := by decide

/-- Claim C2 (amended): a string beginning with to_timestamp passes through
unchanged — unquoted, unescaped, unbound, the store untouched — in both
Parameterized and Literal mode, for any dialect; a string beginning with
to_date (and not with to_timestamp) passes through only in Literal mode. -/
theorem raw_prefix_passthrough (ctx : RenderContext) (pw : NamedParameterWrapper)
    (s : String) :
    (pyStartswith s "to_timestamp" = true →
      (⟨.str s, Option.none⟩ : ParameterizedValueWrapper).get_sql ctx (some pw) =
          some (s, ⟨.str s, Option.none⟩, some pw) ∧
        (⟨.str s, Option.none⟩ : ParameterizedValueWrapper).get_sql ctx Option.none =
          some (s, ⟨.str s, Option.none⟩, Option.none)) ∧
    (pyStartswith s "to_date" = true →
      (⟨.str s, Option.none⟩ : ParameterizedValueWrapper).get_sql ctx Option.none =
        some (s, ⟨.str s, Option.none⟩, Option.none)) := by
  constructor
  · intro hts
    constructor
    · simp [ParameterizedValueWrapper.get_sql, hts, format_alias_sql]
    · simp [ParameterizedValueWrapper.get_sql, hts, format_alias_sql]
  · intro htd
    simp [ParameterizedValueWrapper.get_sql, htd, format_alias_sql]

/-- Witness for C2: a to_timestamp-prefixed string passed through untouched
in Parameterized mode on the OracleLike dialect. -/
theorem raw_prefix_passthrough_witness :
    (⟨.str "to_timestamp('2024-01-15 10:30:00', 'yyyy-mm-dd hh24:mi:ss')",
        Option.none⟩ : ParameterizedValueWrapper).get_sql
        ⟨Option.none, true, fun _ => "DT"⟩ (some ⟨[]⟩) =
      some ("to_timestamp('2024-01-15 10:30:00', 'yyyy-mm-dd hh24:mi:ss')",
        ⟨.str "to_timestamp('2024-01-15 10:30:00', 'yyyy-mm-dd hh24:mi:ss')", Option.none⟩,
        some ⟨[]⟩) :=
  ((raw_prefix_passthrough ⟨Option.none, true, fun _ => "DT"⟩ ⟨[]⟩
    "to_timestamp('2024-01-15 10:30:00', 'yyyy-mm-dd hh24:mi:ss')").1 (by decide)).1

/-- Claim C3: in Parameterized mode a non-raw text value is first rendered to
its fully quoted and escaped literal form, that pre-escaped literal — never
the raw application value, from which it always differs — is what the store
receives, and the SQL emitted in place of the value is the placeholder
returned by the store's bind. -/
theorem param_binding_stores_escaped_literal (ctx : RenderContext)
    (pw : NamedParameterWrapper) (s : String)
    (hraw : pyStartswith s "to_timestamp" = false) :
    ((⟨.str s, Option.none⟩ : ParameterizedValueWrapper).get_sql ctx (some pw) =
      some ("%(" ++ paramKey (pw.parameters.length + 1) ++ ")s", ⟨.str s, Option.none⟩,
        some ⟨dictSet pw.parameters (paramKey (pw.parameters.length + 1))
          (get_value_sql (.str s))⟩)) ∧
    get_value_sql (.str s) ≠ s := by
  constructor
  · simp [ParameterizedValueWrapper.get_sql, hraw, NamedParameterWrapper.get_sql,
      format_alias_sql]
  · intro hcontra
    have hlen : (get_value_sql (.str s)).data.length = s.data.length := by rw [hcontra]
    have hdata : (get_value_sql (.str s)).data = '\'' :: escQuotes s.data ++ ['\''] := rfl
    rw [hdata] at hlen
    have := escQuotes_length s.data
    simp only [List.length_cons, List.length_append, List.length_singleton] at hlen
    omega

/-- Witness for C3: binding "O'Brien" stores the escaped literal, not the
raw text. -/
theorem param_binding_stores_escaped_literal_witness :
    ((⟨.str "O'Brien", Option.none⟩ : ParameterizedValueWrapper).get_sql
        ⟨Option.none, false, fun _ => "DT"⟩ (some ⟨[]⟩) =
      some ("%(" ++ paramKey 1 ++ ")s", ⟨.str "O'Brien", Option.none⟩,
        some ⟨dictSet [] (paramKey 1) (get_value_sql (.str "O'Brien"))⟩)) ∧
    get_value_sql (.str "O'Brien") ≠ "O'Brien" :=
  param_binding_stores_escaped_literal ⟨Option.none, false, fun _ => "DT"⟩ ⟨[]⟩
    "O'Brien" (by decide)

/-- Claim C4: Duration, Time and Datetime values rendered with the OracleLike
dialect active bypass binding entirely — in Parameterized mode the store is
returned untouched — and the SQL returned is a to_timestamp constructor call
wrapping the text produced by the temporal formatter. -/
theorem oracle_temporal_bypasses_binding (qc : Option String)
    (fdt : DatetimeVal → String) (pw : NamedParameterWrapper) (al : Option String)
    (d : Timedelta) (t : TimeOfDay) (dt : DatetimeVal) :
    ((⟨.timedelta d, al⟩ : ParameterizedValueWrapper).get_sql ⟨qc, true, fdt⟩ (some pw) =
        some ("to_timestamp('" ++ format_timedelta d ++ "', 'yyyy-mm-dd hh24:mi:ss.ff6')",
          ⟨.str (format_timedelta d), al⟩, some pw)) ∧
    ((⟨.time t, al⟩ : ParameterizedValueWrapper).get_sql ⟨qc, true, fdt⟩ (some pw) =
        some ("to_timestamp('" ++ format_time t ++ "', 'yyyy-mm-dd hh24:mi:ss.ff6')",
          ⟨.str (format_time t), al⟩, some pw)) ∧
    ((⟨.datetime dt, al⟩ : ParameterizedValueWrapper).get_sql ⟨qc, true, fdt⟩ (some pw) =
        some ("to_timestamp('" ++ fdt dt ++ "', 'yyyy-mm-dd hh24:mi:ss.ff6')",
          ⟨.str (fdt dt), al⟩, some pw)) :=
  ⟨rfl, rfl, rfl⟩

/-- Claim C8: in Parameterized mode only strings are ever bound — rendering
any non-string value (integer, float, boolean, null, duration, time,
datetime) succeeds and returns the store exactly as it was passed in, with
no entry added. -/
theorem non_string_never_bound (ctx : RenderContext) (pw : NamedParameterWrapper)
    (w : ParameterizedValueWrapper) (hns : w.value.isStr = false) :
    (w.get_sql ctx (some pw)).map (fun r => r.2.2) = some (some pw) := by
  obtain ⟨v, al⟩ := w
  cases v with
  | str s => simp [PyValue.isStr] at hns
  | int n =>
      simp only [ParameterizedValueWrapper.get_sql, conversion_column_value]
      split <;> rfl
  | float f =>
      simp only [ParameterizedValueWrapper.get_sql, conversion_column_value]
      split <;> rfl
  | bool b =>
      simp only [ParameterizedValueWrapper.get_sql, conversion_column_value]
      split <;> rfl
  | none =>
      simp only [ParameterizedValueWrapper.get_sql, conversion_column_value]
      split <;> rfl
  | timedelta d =>
      simp only [ParameterizedValueWrapper.get_sql]
      split <;> rfl
  | time t =>
      simp only [ParameterizedValueWrapper.get_sql]
      split <;> rfl
  | datetime dt =>
      simp only [ParameterizedValueWrapper.get_sql]
      split <;> rfl

/-- Witness for C8: an integer rendered in Parameterized mode leaves the
store empty. -/
theorem non_string_never_bound_witness :
    ((⟨.int 42, Option.none⟩ : ParameterizedValueWrapper).get_sql
        ⟨Option.none, false, fun _ => "DT"⟩ (some ⟨[]⟩)).map (fun r => r.2.2) =
      some (some ⟨[]⟩) :=
  non_string_never_bound ⟨Option.none, false, fun _ => "DT"⟩ ⟨[]⟩
    ⟨.int 42, Option.none⟩ (by decide)

/-- Claim C9 counterexample: rendering a Duration value reassigns the
wrapper's payload to the formatted text — the semantic payload is mutated,
and a repeat call would see a string, not a duration. -/
theorem timedelta_render_mutates_payload :
    ((⟨.timedelta ⟨1, 2, 3, 0⟩, Option.none⟩ : ParameterizedValueWrapper).get_sql
        ⟨Option.none, false, fun _ => "DT"⟩ Option.none =
      some ("'01:02:03'", ⟨.str "01:02:03", Option.none⟩, Option.none)) ∧
    (⟨.str "01:02:03", Option.none⟩ : ParameterizedValueWrapper) ≠
      ⟨.timedelta ⟨1, 2, 3, 0⟩, Option.none⟩ := by decide

/-- Claim C9 (amended): serialization can mutate the wrapper — temporal
payloads are replaced by their formatted text on every dialect, and the
OracleLike dialect replaces non-raw payloads by their converted text — but
on a non-OracleLike dialect every non-temporal payload is preserved exactly,
and in Parameterized mode a string payload is never mutated on any
dialect. -/
theorem payload_preserved_cases (ctx : RenderContext)
    (pw : Option NamedParameterWrapper) (w : ParameterizedValueWrapper) :
    (ctx.is_oracledb = false → w.value.isTemporal = false →
      ∀ r, w.get_sql ctx pw = some r → r.2.1 = w) ∧
    (∀ (store : NamedParameterWrapper) (s : String), w.value = .str s →
      ∀ r, w.get_sql ctx (some store) = some r → r.2.1 = w) := by
  obtain ⟨v, al⟩ := w
  constructor
  · intro ho ht r h
    cases v with
    | str s =>
        cases pw with
        | some store =>
            simp only [ParameterizedValueWrapper.get_sql] at h
            split at h
            · obtain rfl := Option.some.inj h; rfl
            · obtain rfl := Option.some.inj h; rfl
        | none =>
            simp only [ParameterizedValueWrapper.get_sql] at h
            split at h
            · obtain rfl := Option.some.inj h; rfl
            · rw [ho] at h
              simp only [Bool.false_eq_true, if_false] at h
              obtain rfl := Option.some.inj h; rfl
    | timedelta d =>
        simp [PyValue.isTemporal] at ht
    | time t =>
        simp [PyValue.isTemporal] at ht
    | datetime dt =>
        simp [PyValue.isTemporal] at ht
    | int n =>
        simp only [ParameterizedValueWrapper.get_sql, ho, Bool.false_eq_true, if_false] at h
        obtain rfl := Option.some.inj h; rfl
    | float f =>
        simp only [ParameterizedValueWrapper.get_sql, ho, Bool.false_eq_true, if_false] at h
        obtain rfl := Option.some.inj h; rfl
    | bool b =>
        simp only [ParameterizedValueWrapper.get_sql, ho, Bool.false_eq_true, if_false] at h
        obtain rfl := Option.some.inj h; rfl
    | none =>
        simp only [ParameterizedValueWrapper.get_sql, ho, Bool.false_eq_true, if_false] at h
        obtain rfl := Option.some.inj h; rfl
  · intro store s hv r h
    subst hv
    simp only [ParameterizedValueWrapper.get_sql] at h
    split at h
    · obtain rfl := Option.some.inj h; rfl
    · obtain rfl := Option.some.inj h; rfl

/-- Witness for C9: a literal-mode integer render on the standard dialect
returns the wrapper unchanged. -/
theorem payload_preserved_cases_witness :
    ("7", (⟨.int 7, Option.none⟩ : ParameterizedValueWrapper),
        (Option.none : Option NamedParameterWrapper)).2.1 =
      (⟨.int 7, Option.none⟩ : ParameterizedValueWrapper) :=
  (payload_preserved_cases ⟨Option.none, false, fun _ => "DT"⟩ Option.none
      ⟨.int 7, Option.none⟩).1 (by decide) (by decide)
    ("7", ⟨.int 7, Option.none⟩, Option.none) (by decide)

/-- Claim C10 counterexample: on the OracleLike dialect a Duration value with
an alias renders through the early-return temporal path, which skips the
trailing alias formatting — the output is the bare constructor text, not the
alias-formatted text. -/
theorem oracle_temporal_omits_alias :
    ((⟨.timedelta ⟨1, 2, 3, 0⟩, some "x"⟩ : ParameterizedValueWrapper).get_sql
        ⟨Option.none, true, fun _ => "DT"⟩ (some ⟨[]⟩) =
      some ("to_timestamp('01:02:03', 'yyyy-mm-dd hh24:mi:ss.ff6')",
        ⟨.str "01:02:03", some "x"⟩, some ⟨[]⟩)) ∧
    ("to_timestamp('01:02:03', 'yyyy-mm-dd hh24:mi:ss.ff6')".data.getLast? = some ')') ∧
    ((format_alias_sql "to_timestamp('01:02:03', 'yyyy-mm-dd hh24:mi:ss.ff6')" (some "x")
        Option.none).data.getLast? = some 'x') ∧
    ("to_timestamp('01:02:03', 'yyyy-mm-dd hh24:mi:ss.ff6')" : String) ≠
      format_alias_sql "to_timestamp('01:02:03', 'yyyy-mm-dd hh24:mi:ss.ff6')" (some "x")
        Option.none := by decide

/-- Claim C10 (amended): trailing alias formatting is applied on every
non-OracleLike rendering path (raw pass-through, parameter binding, standard
literal, temporal formatting) and on every Parameterized string path of any
dialect; the OracleLike early-return paths (temporal constructor and generic
conversion) skip it. -/
theorem alias_applied_non_oracle (ctx : RenderContext)
    (pw : Option NamedParameterWrapper) (w : ParameterizedValueWrapper) (a : String)
    (hal : w.alias_ = some a) :
    (ctx.is_oracledb = false →
      ∀ r, w.get_sql ctx pw = some r →
        ∃ body, r.1 = body ++ " " ++ formatQuotes a ctx.quote_char) ∧
    (∀ (store : NamedParameterWrapper) (s : String), w.value = .str s →
      ∀ r, w.get_sql ctx (some store) = some r →
        ∃ body, r.1 = body ++ " " ++ formatQuotes a ctx.quote_char) := by
  obtain ⟨v, al⟩ := w
  simp only at hal
  subst hal
  constructor
  · intro ho r h
    cases v with
    | str s =>
        cases pw with
        | some store =>
            simp only [ParameterizedValueWrapper.get_sql] at h
            split at h
            · obtain rfl := Option.some.inj h; exact ⟨_, rfl⟩
            · obtain rfl := Option.some.inj h; exact ⟨_, rfl⟩
        | none =>
            simp only [ParameterizedValueWrapper.get_sql] at h
            split at h
            · obtain rfl := Option.some.inj h; exact ⟨_, rfl⟩
            · rw [ho] at h
              simp only [Bool.false_eq_true, if_false] at h
              obtain rfl := Option.some.inj h; exact ⟨_, rfl⟩
    | timedelta d =>
        simp only [ParameterizedValueWrapper.get_sql, ho, Bool.false_eq_true, if_false] at h
        obtain rfl := Option.some.inj h; exact ⟨_, rfl⟩
    | time t =>
        simp only [ParameterizedValueWrapper.get_sql, ho, Bool.false_eq_true, if_false] at h
        obtain rfl := Option.some.inj h; exact ⟨_, rfl⟩
    | datetime dt =>
        simp only [ParameterizedValueWrapper.get_sql, ho, Bool.false_eq_true, if_false] at h
        obtain rfl := Option.some.inj h; exact ⟨_, rfl⟩
    | int n =>
        simp only [ParameterizedValueWrapper.get_sql, ho, Bool.false_eq_true, if_false] at h
        obtain rfl := Option.some.inj h; exact ⟨_, rfl⟩
    | float f =>
        simp only [ParameterizedValueWrapper.get_sql, ho, Bool.false_eq_true, if_false] at h
        obtain rfl := Option.some.inj h; exact ⟨_, rfl⟩
    | bool b =>
        simp only [ParameterizedValueWrapper.get_sql, ho, Bool.false_eq_true, if_false] at h
        obtain rfl := Option.some.inj h; exact ⟨_, rfl⟩
    | none =>
        simp only [ParameterizedValueWrapper.get_sql, ho, Bool.false_eq_true, if_false] at h
        obtain rfl := Option.some.inj h; exact ⟨_, rfl⟩
  · intro store s hv r h
    subst hv
    simp only [ParameterizedValueWrapper.get_sql] at h
    split at h
    · obtain rfl := Option.some.inj h; exact ⟨_, rfl⟩
    · obtain rfl := Option.some.inj h; exact ⟨_, rfl⟩

/-- Witness for C10: an aliased string bound in Parameterized mode renders
with the trailing alias clause. -/
theorem alias_applied_non_oracle_witness :
    ∃ body, ("%(param1)s x" : String) = body ++ " " ++ formatQuotes "x" Option.none :=
  (alias_applied_non_oracle ⟨Option.none, false, fun _ => "DT"⟩ Option.none
      ⟨.str "abc", some "x"⟩ "x" (by decide)).2 ⟨[]⟩ "abc" (by decide)
    ("%(param1)s x", ⟨.str "abc", some "x"⟩, some ⟨[("param1", "'abc'")]⟩) (by decide)

end Frappe
